import Mathlib

/-!
Shallow embedding of `argparse_extd/argparse_extd.py` (class `ArgumentParserExtd`
with its nested classes `NamespaceExtd` and `ConfigActionExtd`), together with
proofs settling the specification claims about it.

Python values flowing through the configuration layer are modelled by `PyScal`
(scalars) and `PyObj` (a scalar, or a one-level string-keyed mapping of scalars,
matching the spec's "flat or singly-nested mapping" data model).  Dictionaries
and `Namespace.__dict__` are association lists with in-place update, which
models Python's insertion-ordered `dict`.  External library functions
(`json.loads`, `yaml.safe_load`, `configparser`, `toml`) are either taken as
parameters of the embedded functions or modelled from their documented
behaviour; the repository's own logic is translated line by line.
-/

set_option autoImplicit false

/-- Scalar Python values appearing in configuration data. -/
inductive PyScal where
  | str (s : String)
  | int (n : Int)
  | bool (b : Bool)
  | pnone
  deriving DecidableEq, Repr

/-- A value stored in a namespace or configuration dictionary: a scalar or a
one-level mapping of scalars (the shape produced by the INI/TOML readers). -/
inductive PyObj where
  | scal (v : PyScal)
  | dict (entries : List (String × PyScal))
  deriving DecidableEq, Repr

/-- A Python `dict` with string keys, in insertion order. -/
abbrev ConfigDict := List (String × PyObj)

/-- `NamespaceExtd.__setattr__` / `dict` assignment `d[name] = value`: replace the
value in place if the key is present, otherwise append the new binding. -/
def setattr : ConfigDict → String → PyObj → ConfigDict
  | [], k, v => [(k, v)]
  | (k', v') :: rest, k, v =>
      if k' = k then (k', v) :: rest else (k', v') :: setattr rest k v

/-- Attribute / item lookup on the namespace dictionary (first match; keys are
unique under `setattr`). -/
def getOpt : ConfigDict → String → Option PyObj
  | [], _ => none
  | (k', v') :: rest, k => if k' = k then some v' else getOpt rest k

/-- Python `hasattr(namespace, name)` for `NamespaceExtd` (its `__getattr__`
raises `AttributeError` exactly when the name is absent from `__dict__`). -/
def hasattr (ns : ConfigDict) (k : String) : Bool :=
  (getOpt ns k).isSome

/-- `NamespaceExtd.update_from_dict` (lines 53-55): `for key, value in
data.items(): setattr(self, key, value)`. -/
def update_from_dict (ns : ConfigDict) (data : ConfigDict) : ConfigDict :=
  data.foldl (fun n kv => setattr n kv.1 kv.2) ns

/-- `NamespaceExtd.to_dict` (lines 57-58): a copy of `__dict__`. -/
def to_dict (ns : ConfigDict) : ConfigDict := ns

/-- argparse's default-filling phase when `parse_args` is given an existing
namespace: for each registered action, the default is assigned only when the
namespace does not already have the attribute (`if not hasattr(namespace,
action.dest)`).  Models the documented contract of the external
`argparse.ArgumentParser.parse_args(namespace=...)`. -/
def apply_defaults (actions : List (String × PyObj)) (ns : ConfigDict) : ConfigDict :=
  actions.foldl (fun n a => if hasattr n a.1 then n else setattr n a.1 a.2) ns

/-- argparse's option-consumption phase: each option seen on the command line
assigns its (converted) value onto the namespace, in command-line order.
Models the documented contract of the external parser. -/
def apply_cli (cli : List (String × PyObj)) (ns : ConfigDict) : ConfigDict :=
  cli.foldl (fun n kv => setattr n kv.1 kv.2) ns

/-- `ArgumentParserExtd.parse_args` (lines 90-94): delegate to
`super().parse_args(args, namespace=self.namespace)`, i.e. fill defaults for
absent attributes and then assign the command-line values onto the shared
namespace. -/
def parse_args (actions : List (String × PyObj)) (cli : List (String × PyObj))
    (ns : ConfigDict) : ConfigDict :=
  apply_cli cli (apply_defaults actions ns)

/-- The `__init__`-then-`parse_args` pipeline of claim C1: the namespace starts
empty, `load_config` merges the decoded config-file mapping `cfg` into it
(`update_from_dict`, line 73/195), and then the parser assigns defaults and
command-line values. -/
def load_then_parse (cfg : ConfigDict) (actions cli : List (String × PyObj)) : ConfigDict :=
  parse_args actions cli (update_from_dict [] cfg)

/-- The value a sequence of `(key, value)` assignments leaves for key `k`
(last assignment wins), starting from `init`. -/
def lastAssignFrom (l : List (String × PyObj)) (k : String) (init : Option PyObj) : Option PyObj :=
  l.foldl (fun acc kv => if kv.1 = k then some kv.2 else acc) init

/-- The last value assigned to `k` by `l`, if any. -/
def lastAssign (l : List (String × PyObj)) (k : String) : Option PyObj :=
  lastAssignFrom l k none

/-- Python `s.endswith(suffix)`. -/
def pyEndsWith (s suf : String) : Bool :=
  suf.data.isSuffixOf s.data

/-- Python `s.startswith(pre)`. -/
def pyStartsWith (s pre : String) : Bool :=
  pre.data.isPrefixOf s.data

/-- Python slicing `s[n:]`. -/
def pyDrop (s : String) (n : Nat) : String :=
  ⟨s.data.drop n⟩

/-- Python `s.replace('-', '_')` (single-character pattern, so character-wise). -/
def pyReplaceDash (s : String) : String :=
  ⟨s.data.map (fun c => if c = '-' then '_' else c)⟩

/-- Python `s.lower()`. -/
def pyLower (s : String) : String :=
  ⟨s.data.map Char.toLower⟩

/-- Index of the last occurrence of `c` (as in Python `s.rfind`, `-1` if absent). -/
def rfindIdxAux (c : Char) : List Char → Nat → Int → Int
  | [], _, best => best
  | x :: xs, i, best => rfindIdxAux c xs (i + 1) (if x = c then (i : Int) else best)

/-- Python `s.rfind(c)`. -/
def rfindIdx (cs : List Char) (c : Char) : Int :=
  rfindIdxAux c cs 0 (-1)

/-- `os.path.splitext` (posix): split off the extension at the last dot of the
basename, unless the basename consists only of leading dots. -/
def splitext (p : String) : String × String :=
  let cs := p.data
  let sepIndex := rfindIdx cs '/'
  let dotIndex := rfindIdx cs '.'
  if sepIndex < dotIndex then
    let fnStart := (sepIndex + 1).toNat
    let dotN := dotIndex.toNat
    if ((cs.drop fnStart).take (dotN - fnStart)).any (fun ch => ch != '.') then
      (⟨cs.take dotN⟩, ⟨cs.drop dotN⟩)
    else (p, "")
  else (p, "")

/-- `ArgumentParserExtd.COMPRESS_EXT` (line 26). -/
def COMPRESS_EXT : List String := [".bz2", ".gz", ".xz"]

/-- `ArgumentParserExtd.INI_SECTION` (line 22). -/
def INI_SECTION : String := "DEFAULT"

/-- `ArgumentParserExtd.TOML_SECTION` (line 23). -/
def TOML_SECTION : String := "DEFAULT"

/-- The `bn` computed by `read_config` (lines 210-215): strip a recognized
compression extension, otherwise keep the whole path. -/
def config_basename (file_path : String) : String :=
  let be := splitext file_path
  if COMPRESS_EXT.contains (pyLower be.2) then be.1 else file_path

/-- An element of the `options` argument of `append_write_config_exclude`:
either a Python string or some non-string object (`None`, a number, ...). -/
inductive ExcludeItem where
  | str (s : String)
  | nonStr
  deriving DecidableEq

/-- The `options` argument itself: a single object, or a `list`/`tuple`/`set`
of objects (line 101 wraps a non-collection argument as a one-element tuple). -/
inductive OptionsArg where
  | single (x : ExcludeItem)
  | coll (xs : List ExcludeItem)

/-- Option-name normalization of line 104: strip a leading `--` or `-`, then
turn internal dashes into underscores. -/
def normalizeOptName (x : String) : String :=
  pyReplaceDash (if pyStartsWith x "--" then pyDrop x 2
                 else if pyStartsWith x "-" then pyDrop x 1 else x)

/-- Loop body of `append_write_config_exclude` (lines 101-106): skip anything
that is not a non-empty string, normalize the name, and append it to the
exclusion list if not already present. -/
def appendExcludeStep (acc : List String) (x : ExcludeItem) : List String :=
  match x with
  | ExcludeItem.nonStr => acc
  | ExcludeItem.str s =>
      if s = "" then acc
      else
        let optname := normalizeOptName s
        if optname ∈ acc then acc else acc ++ [optname]

/-- `ArgumentParserExtd.append_write_config_exclude` (lines 100-106), acting on
the current `write_config_exclude_default` list. -/
def append_write_config_exclude (excl : List String) (options : OptionsArg) : List String :=
  (match options with
   | OptionsArg.coll xs => xs
   | OptionsArg.single x => [x]).foldl appendExcludeStep excl

/-- The items the source's loop actually records: non-empty strings. -/
def validExcludeItem : ExcludeItem → Bool
  | ExcludeItem.str s => s != ""
  | ExcludeItem.nonStr => false

/-- The exclusion list right after `__init__` (lines 87-88): start from `[]`
and run `append_write_config_exclude` on the `exclude_save` argument. -/
def init_write_config_exclude (exclude_save : OptionsArg) : List String :=
  append_write_config_exclude [] exclude_save

/-- Concrete config-file mapping `{a: 1, b: 2}` of claim C1. -/
def cfgEx : ConfigDict := [("a", PyObj.scal (PyScal.int 1)), ("b", PyObj.scal (PyScal.int 2))]

/-- Parser actions for `--a` and `--b` (defaults `None`) in the C1 scenario. -/
def actionsEx : List (String × PyObj) :=
  [("a", PyObj.scal PyScal.pnone), ("b", PyObj.scal PyScal.pnone)]

/-- Command line `--a 9` of claim C1. -/
def cliEx : List (String × PyObj) := [("a", PyObj.scal (PyScal.int 9))]

/-- In-place update on a string-valued association list (Python `dict`
assignment), as used by `configparser`'s defaults/section merging. -/
def setKV : List (String × String) → String → String → List (String × String)
  | [], k, v => [(k, v)]
  | (k', v') :: rest, k, v =>
      if k' = k then (k', v) :: rest else (k', v') :: setKV rest k v

/-- Python `d.copy()` followed by `d.update(upd)`. -/
def dictUpdateStr (base upd : List (String × String)) : List (String × String) :=
  upd.foldl (fun d kv => setKV d kv.1 kv.2) base

/-- The observable state of a `configparser.ConfigParser` after `read_string`:
the `[DEFAULT]` section's pairs land in `defaults`, every other section in
`sections`.  Models the Python standard library's documented behaviour. -/
structure IniDoc where
  defaults : List (String × String)
  sections : List (String × List (String × String))

/-- `configparser.ConfigParser.sections()`: the section names, with the
`DEFAULT` section never included (documented library behaviour). -/
def IniDoc.sectionNames (d : IniDoc) : List String :=
  d.sections.map Prod.fst

/-- `configparser.ConfigParser.items(s)`: the defaults updated with the named
section's own pairs (documented library behaviour). -/
def IniDoc.itemsOf (d : IniDoc) (s : String) : List (String × String) :=
  dictUpdateStr d.defaults (((d.sections.find? (fun kv => kv.1 == s)).map Prod.snd).getD [])

/-- Line 225: `{s: dict(config.items(s)) for s in config.sections() if
s==ini_section}` — the INI decode result of `read_config`. -/
def read_config_ini (config : IniDoc) (ini_section : String) : ConfigDict :=
  ((IniDoc.sectionNames config).filter (fun s => s == ini_section)).map
    (fun s => (s, PyObj.dict ((IniDoc.itemsOf config s).map (fun kv => (kv.1, PyScal.str kv.2)))))

/-- A parsed TOML document as returned by `toml.loads`: the top-level tables. -/
abbrev TomlDoc := List (String × List (String × PyScal))

/-- Python `==` between a `(key, value)` tuple and a `str`: always `False`
(comparison between unrelated types never raises, it just fails). -/
def pyTupleEqStr (_t : String × List (String × PyScal)) (_s : String) : Bool :=
  false

/-- Line 228: `{s: dict(s.items()) for s in config.items() if s==toml_section}`
— `s` ranges over the `(key, table)` tuples of `config.items()`, so the filter
`s == toml_section` compares a tuple with a string and admits nothing.  The
value expression `dict(s.items())` would raise `AttributeError` on a tuple; it
is modelled by the tuple's table component, which is sound because the filter
(provably) lets no element through. -/
def read_config_toml (config : TomlDoc) (toml_section : String) : ConfigDict :=
  (config.filter (fun s => pyTupleEqStr s toml_section)).map
    (fun s => (s.1, PyObj.dict s.2))

/-- `ArgumentParserExtd.read_config` (lines 208-230).  The filesystem is a map
from path to decompressed text content (`open` / `open_compressed` both read
the text, they only differ in the codec, which is transparent here); the four
library parsers are parameters. -/
def read_config (fs : String → Option String)
    (json_loads yaml_safe_load : String → Except String ConfigDict)
    (ini_read_string : String → IniDoc) (toml_loads : String → TomlDoc)
    (file_path : String) (ini_section toml_section : String) : Except String ConfigDict :=
  let bn := config_basename file_path
  match fs file_path with
  | none => Except.error ("FileNotFoundError: " ++ file_path)
  | some content =>
      if pyEndsWith bn ".json" then json_loads content
      else if pyEndsWith bn ".yaml" || pyEndsWith bn ".yml" then yaml_safe_load content
      else if pyEndsWith bn ".ini" then
        Except.ok (read_config_ini (ini_read_string content) ini_section)
      else if pyEndsWith bn ".toml" then
        Except.ok (read_config_toml (toml_loads content) toml_section)
      else Except.error ("Unsupported config file format: " ++ file_path)

/-- The four formats `read_config` recognizes. -/
inductive ConfigFormat where
  | json
  | yaml
  | ini
  | toml

/-- The format the extension chain of `read_config` (lines 218-228) maps a
basename to, `none` when it falls through to the `ValueError` branch. -/
def detect_format (bn : String) : Option ConfigFormat :=
  if pyEndsWith bn ".json" then some ConfigFormat.json
  else if pyEndsWith bn ".yaml" || pyEndsWith bn ".yml" then some ConfigFormat.yaml
  else if pyEndsWith bn ".ini" then some ConfigFormat.ini
  else if pyEndsWith bn ".toml" then some ConfigFormat.toml
  else none

/-- `ArgumentParserExtd.load_configfile` (lines 191-202): merge the decoded
file into the namespace only when the path is a non-empty string naming an
existing file; otherwise (optionally log and) leave the namespace unchanged.
`conf_path = none` models the Python `None` default rejected by the
`isinstance(conf_path, str)` guard. -/
def load_configfile (fs : String → Option String)
    (json_loads yaml_safe_load : String → Except String ConfigDict)
    (ini_read_string : String → IniDoc) (toml_loads : String → TomlDoc)
    (ns : ConfigDict) (conf_path : Option String)
    (ini_section toml_section : String) : Except String ConfigDict :=
  match conf_path with
  | none => Except.ok ns
  | some p =>
      if p ≠ "" ∧ (fs p).isSome then
        (read_config fs json_loads yaml_safe_load ini_read_string toml_loads
          p ini_section toml_section).map (fun data => update_from_dict ns data)
      else Except.ok ns

/-- `ArgumentParserExtd.load_config` (lines 204-206): `load_configfile` on the
instance namespace with the class-level section names. -/
def load_config (fs : String → Option String)
    (json_loads yaml_safe_load : String → Except String ConfigDict)
    (ini_read_string : String → IniDoc) (toml_loads : String → TomlDoc)
    (ns : ConfigDict) (conf_path : Option String) : Except String ConfigDict :=
  load_configfile fs json_loads yaml_safe_load ini_read_string toml_loads
    ns conf_path INI_SECTION TOML_SECTION

/-- Outcome of `ConfigActionExtd.__call__`: either the namespace with the
config file merged in, or a process exit via `parser.error` (argparse exits
with status 2 after printing the usage error). -/
inductive CallOutcome where
  | merged (ns : ConfigDict)
  | exited (code : Nat) (msg : String)
  deriving DecidableEq

/-- `ConfigActionExtd.__call__` (lines 67-75): if the supplied path exists,
decode it with `read_config` (class section constants) and merge into the
shared namespace; otherwise `parser.error('Config file %s not found.')`. -/
def ConfigActionExtd_call (fs : String → Option String)
    (json_loads yaml_safe_load : String → Except String ConfigDict)
    (ini_read_string : String → IniDoc) (toml_loads : String → TomlDoc)
    (ns : ConfigDict) (values : String) : Except String CallOutcome :=
  if (fs values).isSome then
    (read_config fs json_loads yaml_safe_load ini_read_string toml_loads
      values INI_SECTION TOML_SECTION).map
      (fun conf_data => CallOutcome.merged (update_from_dict ns conf_data))
  else Except.ok (CallOutcome.exited 2 ("Config file " ++ values ++ " not found."))

/-- The attribute names `ArgumentParserExtd` actually defines as nested
classes (lines 28 and 60). -/
def ArgumentParserExtd_nested : List String := ["NamespaceExtd", "ConfigActionExtd"]

/-- Python attribute lookup on the class object: succeeds only for attributes
the class defines, otherwise raises `AttributeError`. -/
def getattr_ArgumentParserExtd (name : String) : Except String String :=
  if ArgumentParserExtd_nested.contains name then Except.ok name
  else Except.error ("AttributeError: type object ArgumentParserExtd has no attribute " ++ name)

/-- Line 167 of `add_argument_config`: `action=self.__class__.ConfigActionExt`
— the attribute lookup the registration helper performs. -/
def add_argument_config_action_lookup : Except String String :=
  getattr_ArgumentParserExtd "ConfigActionExt"

/-- Placeholder parser for branches a concrete evaluation never reaches. -/
def dummyDictLoads (_s : String) : Except String ConfigDict :=
  Except.error "not invoked"

/-- Placeholder INI parser for branches a concrete evaluation never reaches. -/
def dummyIniParse (_s : String) : IniDoc :=
  { defaults := [], sections := [] }

/-- Placeholder TOML parser for branches a concrete evaluation never reaches. -/
def dummyTomlLoads (_s : String) : TomlDoc := []

/-- The INI text of claim C4's example, with a `[DEFAULT]` and an `[other]`
section. -/
def iniTextEx : String := "[DEFAULT]\na = 1\n[other]\nb = 2\n"

/-- What `configparser.read_string` produces on `iniTextEx`: `a` goes to the
defaults, `other` is the only listed section. -/
def iniDocEx : IniDoc := { defaults := [("a", "1")], sections := [("other", [("b", "2")])] }

/-- A concrete stand-in for `configparser.read_string`, agreeing with the real
library on the example document. -/
def iniParseEx (s : String) : IniDoc :=
  if s = iniTextEx then iniDocEx else { defaults := [], sections := [] }

/-- Filesystem holding the example INI file. -/
def fsIniEx (p : String) : Option String :=
  if p = "m.ini" then some iniTextEx else none

/-- The TOML text of claim C5's example: one table named `DEFAULT`. -/
def tomlTextEx : String := "[DEFAULT]\na = 1\n"

/-- What `toml.loads` produces on `tomlTextEx`. -/
def tomlDocEx : TomlDoc := [("DEFAULT", [("a", PyScal.int 1)])]

/-- A concrete stand-in for `toml.loads`, agreeing with the real library on the
example document. -/
def tomlParseEx (s : String) : TomlDoc :=
  if s = tomlTextEx then tomlDocEx else []

/-- Filesystem holding the example TOML file. -/
def fsTomlEx (p : String) : Option String :=
  if p = "m.toml" then some tomlTextEx else none

/-- The JSON text of the C6 example config file. -/
def jsonTextEx : String := "\x7b\"a\": 1\x7d"

/-- A concrete stand-in for `json.loads`, agreeing with the real library on the
example document. -/
def jsonParseEx (s : String) : Except String ConfigDict :=
  if s = jsonTextEx then Except.ok [("a", PyObj.scal (PyScal.int 1))]
  else Except.error "json.decoder.JSONDecodeError"

/-- Filesystem holding the example JSON file. -/
def fsJsonEx (p : String) : Option String :=
  if p = "c.json" then some jsonTextEx else none

/-- A filesystem on which no path exists. -/
def fsEmptyEx : String → Option String := fun _ => none

/-- Python `str()` on a scalar. -/
def pyStrOfScal : PyScal → String
  | PyScal.str s => s
  | PyScal.int n => toString n
  | PyScal.bool b => if b then "True" else "False"
  | PyScal.pnone => "None"

/-- Concatenate with a separator. -/
def joinSep (sep : String) : List String → String
  | [] => ""
  | [x] => x
  | x :: xs => x ++ sep ++ joinSep sep xs

/-- A run of spaces (JSON indentation). -/
def spaces (n : Nat) : String :=
  ⟨List.replicate n ' '⟩

/-- Escapes used by Python `repr` of a string. -/
def pyReprEscChar (c : Char) : String :=
  if c = '\\' then "\\\\"
  else if c = '\x27' then "\\\x27"
  else if c = '\n' then "\\n"
  else String.singleton c

/-- Python `repr` of a string: single-quoted with escapes. -/
def pyReprStr (s : String) : String :=
  "\x27" ++ String.join (s.data.map pyReprEscChar) ++ "\x27"

/-- Python `repr` of a scalar. -/
def pyReprScal : PyScal → String
  | PyScal.str s => pyReprStr s
  | PyScal.int n => toString n
  | PyScal.bool b => if b then "True" else "False"
  | PyScal.pnone => "None"

/-- Python `repr` (= `str`) of a scalar-valued dict. -/
def pyReprScalDict (es : List (String × PyScal)) : String :=
  match es with
  | [] => "\x7b\x7d"
  | _ => "\x7b" ++ joinSep ", " (es.map (fun kv => pyReprStr kv.1 ++ ": " ++ pyReprScal kv.2)) ++ "\x7d"

/-- Python `repr` of a value. -/
def pyReprObj : PyObj → String
  | PyObj.scal v => pyReprScal v
  | PyObj.dict es => pyReprScalDict es

/-- Python `repr(skim_data)` — the permissive fallback of `dict_to_string`
(line 293). -/
def pyRepr (data : ConfigDict) : String :=
  match data with
  | [] => "\x7b\x7d"
  | _ => "\x7b" ++ joinSep ", " (data.map (fun kv => pyReprStr kv.1 ++ ": " ++ pyReprObj kv.2)) ++ "\x7d"

/-- Python `str()` on a value (used by the INI writer's `str(value)`). -/
def pyStrOfObj : PyObj → String
  | PyObj.scal v => pyStrOfScal v
  | PyObj.dict es => pyReprScalDict es

/-- JSON string escapes (`json.dumps`). -/
def jsonEscChar (c : Char) : String :=
  if c = '\\' then "\\\\"
  else if c = '"' then "\\\""
  else if c = '\n' then "\\n"
  else String.singleton c

/-- JSON rendering of a string. -/
def jsonStr (s : String) : String :=
  "\"" ++ String.join (s.data.map jsonEscChar) ++ "\""

/-- JSON rendering of a scalar. -/
def jsonScal : PyScal → String
  | PyScal.str s => jsonStr s
  | PyScal.int n => toString n
  | PyScal.bool b => if b then "true" else "false"
  | PyScal.pnone => "null"

/-- JSON rendering of a value at indentation `ind` (nested objects indent four
more spaces, as `json.dumps(..., indent=4)` does). -/
def jsonObjVal (v : PyObj) (ind : Nat) : String :=
  match v with
  | PyObj.scal sv => jsonScal sv
  | PyObj.dict [] => "\x7b\x7d"
  | PyObj.dict es =>
      "\x7b\n" ++ joinSep ",\n" (es.map (fun kv => spaces (ind + 4) ++ jsonStr kv.1 ++ ": " ++ jsonScal kv.2))
        ++ "\n" ++ spaces ind ++ "\x7d"

/-- Models `json.dumps(skim_data, indent=json_indent)` for our value domain. -/
def json_dumps (data : ConfigDict) (indent : Nat) : String :=
  match data with
  | [] => "\x7b\x7d"
  | _ =>
      "\x7b\n" ++ joinSep ",\n" (data.map (fun kv => spaces indent ++ jsonStr kv.1 ++ ": " ++ jsonObjVal kv.2 indent))
        ++ "\n\x7d"

/-- YAML scalar rendering (plain style; PyYAML's quoting of ambiguous strings
is not modelled — no claim inspects this text). -/
def yamlScal : PyScal → String
  | PyScal.str s => s
  | PyScal.int n => toString n
  | PyScal.bool b => if b then "true" else "false"
  | PyScal.pnone => "null"

/-- YAML flow rendering of a value. -/
def yamlObjFlow : PyObj → String
  | PyObj.scal v => yamlScal v
  | PyObj.dict es => "\x7b" ++ joinSep ", " (es.map (fun kv => kv.1 ++ ": " ++ yamlScal kv.2)) ++ "\x7d"

/-- YAML block rendering of one top-level entry. -/
def yamlEntryBlock (kv : String × PyObj) : String :=
  match kv.2 with
  | PyObj.scal v => kv.1 ++ ": " ++ yamlScal v ++ "\n"
  | PyObj.dict es => kv.1 ++ ":\n" ++ joinSep "" (es.map (fun e => "  " ++ e.1 ++ ": " ++ yamlScal e.2 ++ "\n"))

/-- Models `yaml.dump(skim_data, default_flow_style=...)`. -/
def yaml_dump (data : ConfigDict) (default_flow_style : Bool) : String :=
  match data with
  | [] => "\x7b\x7d\n"
  | _ =>
      if default_flow_style then
        "\x7b" ++ joinSep ", " (data.map (fun kv => kv.1 ++ ": " ++ yamlObjFlow kv.2)) ++ "\x7d\n"
      else joinSep "" (data.map yamlEntryBlock)

/-- Models the `configparser` write of lines 283-289: each key stored as
`config[ini_section][key] = str(value)` and written as `key = value` lines
under the section header; an empty parser writes nothing. -/
def ini_write (skim : ConfigDict) (ini_section : String) : String :=
  match skim with
  | [] => ""
  | _ =>
      "[" ++ ini_section ++ "]\n"
        ++ joinSep "" (skim.map (fun kv => kv.1 ++ " = " ++ pyStrOfObj kv.2 ++ "\n")) ++ "\n"

/-- TOML value rendering; `toml` raises `TypeError` on `None`. -/
def tomlValStr : PyScal → Except String String
  | PyScal.str s => Except.ok (jsonStr s)
  | PyScal.int n => Except.ok (toString n)
  | PyScal.bool b => Except.ok (if b then "true" else "false")
  | PyScal.pnone => Except.error "TypeError: NoneType is not TOML serializable"

/-- One TOML table: header plus `key = value` lines. -/
def tomlTableLines (name : String) (entries : List (String × PyScal)) : Except String String := do
  let ls ← entries.mapM (fun kv => do
    let v ← tomlValStr kv.2
    pure (kv.1 ++ " = " ++ v ++ "\n"))
  pure ("[" ++ name ++ "]\n" ++ joinSep "" ls)

/-- Models `toml.dumps({toml_section: skim_data})`: one top-level table with
the scalar entries, followed by sub-tables for mapping-valued entries. -/
def toml_dumps (toml_section : String) (skim : ConfigDict) : Except String String := do
  let scals := skim.filterMap (fun kv => match kv.2 with
    | PyObj.scal v => some (kv.1, v)
    | PyObj.dict _ => none)
  let tables := skim.filterMap (fun kv => match kv.2 with
    | PyObj.scal _ => none
    | PyObj.dict es => some (kv.1, es))
  let top ← tomlTableLines toml_section scals
  let subs ← tables.mapM (fun t => tomlTableLines (toml_section ++ "." ++ t.1) t.2)
  pure (top ++ joinSep "" subs)

/-- Line 276: `skim_data = {k: v for k, v in data.items() if k not in
exclude_keys}`. -/
def skim_data (data : ConfigDict) (exclude_keys : List String) : ConfigDict :=
  data.filter (fun kv => decide (kv.1 ∉ exclude_keys))

/-- A dictionary with one key removed (used to state that excluded keys leave
no trace in the output). -/
def removeKey (data : ConfigDict) (k : String) : ConfigDict :=
  data.filter (fun kv => decide (kv.1 ≠ k))

/-- Whether `dict_to_string`'s extension chain (lines 278-292) recognizes the
output format. -/
def output_format_known (ofmt : String) : Bool :=
  pyEndsWith ofmt "json" || pyEndsWith ofmt "yaml" || pyEndsWith ofmt "yml"
    || pyEndsWith ofmt "ini" || pyEndsWith ofmt "toml"

/-- `ArgumentParserExtd.dict_to_string` (lines 270-295).  The `exclude_keys`
argument is modelled as the key list (a `dict` argument contributes exactly its
keys, line 275).  The INI branch raises `KeyError` when the parser is asked
for a section other than `DEFAULT` and there is at least one item to store
(`config[ini_section]` on a fresh `ConfigParser` only knows `DEFAULT`); the
unsupported-format branch falls back to `repr` and never fails. -/
def dict_to_string (data : ConfigDict) (exclude_keys : List String) (output_format : String)
    (json_indent : Nat) (yaml_default_flow_style : Bool)
    (ini_section toml_section : String) : Except String String :=
  let skim := skim_data data exclude_keys
  if pyEndsWith output_format "json" then Except.ok (json_dumps skim json_indent)
  else if pyEndsWith output_format "yaml" || pyEndsWith output_format "yml" then
    Except.ok (yaml_dump skim yaml_default_flow_style)
  else if pyEndsWith output_format "ini" then
    if skim = [] ∨ ini_section = "DEFAULT" then Except.ok (ini_write skim ini_section)
    else Except.error ("KeyError: " ++ ini_section)
  else if pyEndsWith output_format "toml" then toml_dumps toml_section skim
  else Except.ok (pyRepr skim)

/-- The `f_path` argument of `write_configfile`: a string, or a non-string
object — in particular the parser instance that `save_config_action`
erroneously passes at line 188. -/
inductive PyFPath where
  | str (s : String)
  | parserObj
  deriving DecidableEq

/-- `ArgumentParserExtd.write_configfile` (lines 243-268): silently return for
a non-string or empty path; otherwise strip a compression extension, choose
the output format from the remaining extension, encode via `dict_to_string`
and write the text at the path.  The result records what was written (`none`
when nothing was); directory creation and `chmod` are effects outside the
data path. -/
def write_configfile (f_path : PyFPath) (data : ConfigDict) (exclude_keys : List String)
    (json_indent : Nat) (yaml_default_flow_style : Bool) (ini_section toml_section : String) :
    Except String (Option (String × String)) :=
  match f_path with
  | PyFPath.parserObj => Except.ok none
  | PyFPath.str s =>
      if s.length < 1 then Except.ok none
      else
        let bn := config_basename s
        match dict_to_string data exclude_keys (splitext bn).2 json_indent
            yaml_default_flow_style ini_section toml_section with
        | Except.error e => Except.error e
        | Except.ok content => Except.ok (some (s, content))

/-- `ArgumentParserExtd.write_config` (lines 317-329): `write_configfile` on
the namespace contents with the registered default exclusions prepended to the
caller's exclusions and the class section names. -/
def write_config (write_config_exclude_default : List String) (ns : ConfigDict)
    (f_path : PyFPath) (exclude_keys : List String)
    (json_indent : Nat) (yaml_default_flow_style : Bool) :
    Except String (Option (String × String)) :=
  write_configfile f_path (to_dict ns) (write_config_exclude_default ++ exclude_keys)
    json_indent yaml_default_flow_style INI_SECTION TOML_SECTION

/-- `ArgumentParserExtd.save_config_action` (lines 184-189): fetch the saved
path from the namespace (`namespace[...]` raises `KeyError` when absent); when
it is a non-empty string, call `self.write_config(self, ...)` — passing the
parser object itself as the file path. -/
def save_config_action (ns : ConfigDict) (save_config_key : String)
    (write_config_exclude_default : List String) (exclude_keys : List String)
    (json_indent : Nat) (yaml_default_flow_style : Bool) :
    Except String (Option (String × String)) :=
  match getOpt ns save_config_key with
  | none => Except.error ("KeyError: " ++ save_config_key)
  | some save_path =>
      match save_path with
      | PyObj.scal (PyScal.str p) =>
          if p ≠ "" then
            write_config write_config_exclude_default ns PyFPath.parserObj exclude_keys
              json_indent yaml_default_flow_style
          else Except.ok none
      | _ => Except.ok none

/-- Namespace of the C8 scenario: the save-config option carries the path
`out.json`. -/
def nsSaveEx : ConfigDict :=
  [("save_configfile", PyObj.scal (PyScal.str "out.json")), ("a", PyObj.scal (PyScal.int 1))]

/-- The flat mapping `M = {a: 1}` of the round-trip claim. -/
def mEx : ConfigDict := [("a", PyObj.scal (PyScal.int 1))]

/-- Filesystem holding the text the TOML encoder produced for `mEx`. -/
def fsRtTomlEx (p : String) : Option String :=
  if p = "rt.toml" then some tomlTextEx else none

/-- Filesystem with a file whose extension maps to no known format. -/
def fsTxtEx (p : String) : Option String :=
  if p = "conf.txt" then some "hello" else none

theorem getOpt_setattr (ns : ConfigDict) (k k' : String) (v : PyObj) :
    getOpt (setattr ns k v) k' = if k = k' then some v else getOpt ns k' := by
  induction ns with
  | nil =>
      simp only [setattr, getOpt]
  | cons hd tl ih =>
      obtain ⟨k₀, v₀⟩ := hd
      by_cases h0 : k₀ = k
      · subst h0
        by_cases h1 : k₀ = k'
        · subst h1
          simp [setattr, getOpt]
        · simp [setattr, getOpt, h1]
      · by_cases h1 : k₀ = k'
        · subst h1
          simp [setattr, getOpt, h0, Ne.symm h0]
        · simp [setattr, getOpt, h0, h1, ih]

theorem lastAssignFrom_eq (l : List (String × PyObj)) (k : String) (i : Option PyObj) :
    lastAssignFrom l k i = (lastAssign l k).elim i some := by
  induction l generalizing i with
  | nil => rfl
  | cons hd tl ih =>
      simp only [lastAssign, lastAssignFrom, List.foldl_cons] at ih ⊢
      by_cases hk : hd.1 = k
      · simp only [if_pos hk]
        rw [ih (some hd.2)]
        generalize List.foldl (fun acc kv => if kv.1 = k then some kv.2 else acc) none tl = o
        cases o <;> rfl
      · simp only [if_neg hk]
        exact ih i

theorem getOpt_foldl_setattr (l : List (String × PyObj)) (ns : ConfigDict) (k : String) :
    getOpt (l.foldl (fun n kv => setattr n kv.1 kv.2) ns) k =
      lastAssignFrom l k (getOpt ns k) := by
  induction l generalizing ns with
  | nil => rfl
  | cons hd tl ih =>
      simp only [List.foldl_cons]
      rw [ih, lastAssignFrom, lastAssignFrom, List.foldl_cons, getOpt_setattr]

theorem lastAssignFrom_of_some (l : List (String × PyObj)) (k : String) (v : PyObj)
    (init : Option PyObj) (h : lastAssign l k = some v) :
    lastAssignFrom l k init = some v := by
  rw [lastAssignFrom_eq, h]
  rfl

theorem getOpt_apply_defaults_of_some (actions : List (String × PyObj)) (ns : ConfigDict)
    (k : String) (v : PyObj) (h : getOpt ns k = some v) :
    getOpt (apply_defaults actions ns) k = some v := by
  induction actions generalizing ns with
  | nil => exact h
  | cons hd tl ih =>
      simp only [apply_defaults, List.foldl_cons]
      by_cases hh : hasattr ns hd.1
      · simp only [hh, if_pos]
        exact ih ns h
      · simp only [hh]
        rw [if_neg (by simp [hh])]
        apply ih
        rw [getOpt_setattr]
        by_cases hk : hd.1 = k
        · exfalso
          apply hh
          subst hk
          simp [hasattr, h]
        · simp [hk, h]

theorem getOpt_update_from_dict_empty (cfg : ConfigDict) (k : String) :
    getOpt (update_from_dict [] cfg) k = lastAssign cfg k := by
  rw [update_from_dict, getOpt_foldl_setattr]
  rfl

/-- Claim C1: command line takes precedence over the config file.  For every
loaded config mapping, every action set, and every command line, a key assigned
on the command line ends with its command-line value in the final namespace,
and a key assigned only by the config file keeps the file value — because
`load_config` merges file values into the shared namespace (`update_from_dict`)
before `parse_args` assigns command-line values into the same namespace. -/
theorem config_cli_precedence (cfg : ConfigDict) (actions cli : List (String × PyObj))
    (k : String) (v : PyObj) :
    (lastAssign cli k = some v →
      getOpt (load_then_parse cfg actions cli) k = some v) ∧
    (lastAssign cli k = none → lastAssign cfg k = some v →
      getOpt (load_then_parse cfg actions cli) k = some v) := by
  have hfold : getOpt (load_then_parse cfg actions cli) k =
      lastAssignFrom cli k (getOpt (apply_defaults actions (update_from_dict [] cfg)) k) := by
    rw [load_then_parse, parse_args, apply_cli, getOpt_foldl_setattr]
  constructor
  · intro h
    rw [hfold]
    exact lastAssignFrom_of_some cli k v _ h
  · intro hcli hcfg
    rw [hfold, lastAssignFrom_eq, hcli]
    have h1 : getOpt (update_from_dict [] cfg) k = some v := by
      rw [getOpt_update_from_dict_empty, hcfg]
    exact getOpt_apply_defaults_of_some actions _ k v h1

/-- Witness for C1 at the claim's concrete instance: with a config file
defining `{a: 1, b: 2}` and a command line supplying `--a 9`, the final
namespace has `a == 9` and `b == 2`. -/
theorem config_cli_precedence_witness :
    getOpt (load_then_parse cfgEx actionsEx cliEx) "a" = some (PyObj.scal (PyScal.int 9)) ∧
    getOpt (load_then_parse cfgEx actionsEx cliEx) "b" = some (PyObj.scal (PyScal.int 2)) :=
  ⟨(config_cli_precedence cfgEx actionsEx cliEx "a" (PyObj.scal (PyScal.int 9))).1 rfl,
   (config_cli_precedence cfgEx actionsEx cliEx "b" (PyObj.scal (PyScal.int 2))).2 rfl rfl⟩

theorem foldl_appendExcludeStep_filter (xs : List ExcludeItem) (acc : List String) :
    xs.foldl appendExcludeStep acc = (xs.filter validExcludeItem).foldl appendExcludeStep acc := by
  induction xs generalizing acc with
  | nil => rfl
  | cons x xs ih =>
      cases x with
      | nonStr =>
          simp only [List.filter_cons, validExcludeItem, List.foldl_cons]
          rw [show appendExcludeStep acc ExcludeItem.nonStr = acc from rfl]
          exact ih acc
      | str s =>
          by_cases hs : s = ""
          · subst hs
            simp only [List.filter_cons, validExcludeItem, List.foldl_cons, bne_self_eq_false,
              cond_false]
            rw [show appendExcludeStep acc (ExcludeItem.str "") = acc from rfl]
            exact ih acc
          · have hv : validExcludeItem (ExcludeItem.str s) = true := by
              simp [validExcludeItem, hs]
            simp only [List.filter_cons, hv, cond_true, List.foldl_cons]
            exact ih (appendExcludeStep acc (ExcludeItem.str s))

/-- Claim C10: `append_write_config_exclude` treats a single string as a
one-element collection, skips every element that is not a non-empty string
without raising and without changing the exclusion list, and constructing the
parser with `exclude_save=None` leaves the default exclusion list empty. -/
theorem append_exclude_skips_invalid (excl : List String) (s : String) (xs : List ExcludeItem) :
    append_write_config_exclude excl (OptionsArg.single ExcludeItem.nonStr) = excl ∧
    append_write_config_exclude excl (OptionsArg.single (ExcludeItem.str s)) =
      append_write_config_exclude excl (OptionsArg.coll [ExcludeItem.str s]) ∧
    append_write_config_exclude excl (OptionsArg.coll xs) =
      append_write_config_exclude excl (OptionsArg.coll (xs.filter validExcludeItem)) ∧
    init_write_config_exclude (OptionsArg.single ExcludeItem.nonStr) = [] := by
  refine ⟨rfl, rfl, ?_, rfl⟩
  simp only [append_write_config_exclude]
  exact foldl_appendExcludeStep_filter xs excl

/-- Claim C4 (code behaviour at the claim's own example, refuting it):
decoding an INI document with sections `[DEFAULT]` and `[other]` using
`ini_section="DEFAULT"` yields the empty mapping, because
`configparser.sections()` never lists the `DEFAULT` section; and decoding the
same document with `ini_section="other"` leaks `DEFAULT`'s key `a` into the
result, because `configparser.items(s)` includes the defaults. -/
theorem ini_default_section_lost :
    read_config fsIniEx dummyDictLoads dummyDictLoads iniParseEx dummyTomlLoads
      "m.ini" "DEFAULT" "DEFAULT" = Except.ok [] ∧
    read_config_ini iniDocEx "other" =
      [("other", PyObj.dict [("a", PyScal.str "1"), ("b", PyScal.str "2")])] := by
  exact ⟨rfl, rfl⟩

/-- The TOML section filter at line 228 compares `(key, table)` tuples with the
section-name string, so it keeps nothing whatever the document and section. -/
theorem read_config_toml_empty (config : TomlDoc) (toml_section : String) :
    read_config_toml config toml_section = [] := by
  induction config with
  | nil => rfl
  | cons hd tl ih =>
      simp only [read_config_toml, List.filter_cons, pyTupleEqStr, cond_false] at ih ⊢
      exact ih

/-- Claim C5 (code behaviour at the claim's own example, refuting it): for a
TOML document whose only top-level table is named `DEFAULT`, `read_config`
with `toml_section="DEFAULT"` returns the empty mapping — the table is
discarded along with every other one, because the comprehension compares
`(key, table)` tuples with the section-name string. -/
theorem toml_table_never_extracted :
    read_config fsTomlEx dummyDictLoads dummyDictLoads dummyIniParse tomlParseEx
      "m.toml" "DEFAULT" "DEFAULT" = Except.ok [] ∧
    tomlParseEx tomlTextEx = [("DEFAULT", [("a", PyScal.int 1)])] := by
  exact ⟨rfl, rfl⟩

/-- Claim C6 (code behaviour, refuting the registration path): the documented
registration helper `add_argument_config` looks up the nonexistent class
attribute `ConfigActionExt` (the class is named `ConfigActionExtd`), so it
raises `AttributeError` and the config-file option is never registered.  The
`ConfigActionExtd.__call__` logic itself matches the claim: on an existing
path the file is decoded and merged into the shared namespace, and on a
missing path the parser reports a usage error and exits with status 2. -/
theorem add_argument_config_attribute_error :
    add_argument_config_action_lookup =
      Except.error "AttributeError: type object ArgumentParserExtd has no attribute ConfigActionExt" ∧
    ConfigActionExtd_call fsEmptyEx dummyDictLoads dummyDictLoads dummyIniParse dummyTomlLoads
      [] "missing.json" =
      Except.ok (CallOutcome.exited 2 "Config file missing.json not found.") ∧
    ConfigActionExtd_call fsJsonEx jsonParseEx dummyDictLoads dummyIniParse dummyTomlLoads
      [("x", PyObj.scal (PyScal.int 0))] "c.json" =
      Except.ok (CallOutcome.merged
        [("x", PyObj.scal (PyScal.int 0)), ("a", PyObj.scal (PyScal.int 1))]) := by
  exact ⟨rfl, rfl, rfl⟩

/-- Claim C7: loading with an empty path or a path to a file that does not
exist leaves the namespace completely unchanged and raises no error. -/
theorem load_missing_config_noop (fs : String → Option String)
    (json_loads yaml_safe_load : String → Except String ConfigDict)
    (ini_read_string : String → IniDoc) (toml_loads : String → TomlDoc)
    (ns : ConfigDict) (conf_path : Option String) (ini_section toml_section : String)
    (h : ∀ p, conf_path = some p → p = "" ∨ fs p = none) :
    load_configfile fs json_loads yaml_safe_load ini_read_string toml_loads
      ns conf_path ini_section toml_section = Except.ok ns := by
  cases conf_path with
  | none => rfl
  | some p =>
      rcases h p rfl with h1 | h1
      · subst h1
        simp [load_configfile]
      · simp [load_configfile, h1]

/-- Witness for C7: loading a nonexistent default path leaves a concrete
namespace untouched and produces no error. -/
theorem load_missing_config_noop_witness :
    load_configfile fsEmptyEx dummyDictLoads dummyDictLoads dummyIniParse dummyTomlLoads
      [("x", PyObj.scal (PyScal.int 7))] (some "absent.json") "DEFAULT" "DEFAULT" =
      Except.ok [("x", PyObj.scal (PyScal.int 7))] :=
  load_missing_config_noop fsEmptyEx dummyDictLoads dummyDictLoads dummyIniParse dummyTomlLoads
    [("x", PyObj.scal (PyScal.int 7))] (some "absent.json") "DEFAULT" "DEFAULT"
    (fun p hp => Or.inr (by cases hp; rfl))

theorem secret_mem_append (defaults : List String) :
    "secret" ∈ append_write_config_exclude defaults (OptionsArg.single (ExcludeItem.str "secret")) := by
  have h2 : append_write_config_exclude defaults (OptionsArg.single (ExcludeItem.str "secret")) =
      if "secret" ∈ defaults then defaults else defaults ++ ["secret"] := by
    simp only [append_write_config_exclude, List.foldl_cons, List.foldl_nil, appendExcludeStep]
    rw [if_neg (by decide : ¬ ("secret" : String) = "")]
    have hn : normalizeOptName "secret" = "secret" := by decide
    rw [hn]
  rw [h2]
  by_cases h : "secret" ∈ defaults
  · rw [if_pos h]; exact h
  · rw [if_neg h]
    exact List.mem_append_right _ (List.mem_singleton.2 rfl)

theorem mem_skim_keys (data : ConfigDict) (excl : List String) (k : String) (h : k ∈ excl) :
    k ∉ (skim_data data excl).map Prod.fst := by
  intro hmem
  rcases List.mem_map.1 hmem with ⟨kv, hkv, hfst⟩
  have h2 := (List.mem_filter.1 hkv).2
  simp only [decide_eq_true_eq] at h2
  exact h2 (by rw [hfst]; exact h)

theorem skim_setattr_excluded (data : ConfigDict) (excl : List String) (k : String) (v : PyObj)
    (h : k ∈ excl) : skim_data (setattr data k v) excl = skim_data data excl := by
  induction data with
  | nil => simp [skim_data, setattr, h]
  | cons hd tl ih =>
      obtain ⟨k0, v0⟩ := hd
      by_cases hk : k0 = k
      · subst hk
        simp [setattr, skim_data, List.filter_cons, h]
      · simp only [setattr, if_neg hk, skim_data, List.filter_cons] at ih ⊢
        rw [ih]

theorem filter_filter_of_imp {α : Type} (p q : α → Bool) (l : List α)
    (h : ∀ a, q a = true → p a = true) : (l.filter p).filter q = l.filter q := by
  induction l with
  | nil => rfl
  | cons hd tl ih =>
      by_cases hp : p hd = true
      · rw [List.filter_cons, if_pos hp, List.filter_cons, List.filter_cons, ih]
      · have hq : q hd = false := by
          cases hqe : q hd
          · rfl
          · exact absurd (h hd hqe) hp
        rw [List.filter_cons, if_neg (by simp [hp]), List.filter_cons, if_neg (by simp [hq]), ih]

theorem skim_removeKey_excluded (data : ConfigDict) (excl : List String) (k : String)
    (h : k ∈ excl) : skim_data (removeKey data k) excl = skim_data data excl := by
  apply filter_filter_of_imp
  intro kv hq
  simp only [decide_eq_true_eq] at hq ⊢
  exact fun he => hq (by rw [he]; exact h)

theorem dict_to_string_congr (d1 d2 : ConfigDict) (excl : List String) (ofmt : String)
    (ji : Nat) (yfs : Bool) (isec tsec : String)
    (h : skim_data d1 excl = skim_data d2 excl) :
    dict_to_string d1 excl ofmt ji yfs isec tsec = dict_to_string d2 excl ofmt ji yfs isec tsec := by
  simp only [dict_to_string, h]

theorem write_configfile_congr (d1 d2 : ConfigDict) (excl : List String) (fp : PyFPath)
    (ji : Nat) (yfs : Bool) (isec tsec : String)
    (h : skim_data d1 excl = skim_data d2 excl) :
    write_configfile fp d1 excl ji yfs isec tsec = write_configfile fp d2 excl ji yfs isec tsec := by
  cases fp with
  | parserObj => rfl
  | str s =>
      simp only [write_configfile]
      rw [dict_to_string_congr d1 d2 excl _ ji yfs isec tsec h]

/-- Claim C3: once `append_write_config_exclude("secret")` has registered the
name, every `write_config` serialization excludes it: the mapping handed to
the encoder has no key `secret`, and — whatever value is stored under `secret`
in the namespace — the written output is the same as if the key were absent
altogether. -/
theorem write_config_excludes_secret (defaults extra : List String) (data : ConfigDict)
    (v : PyObj) (f_path : PyFPath) (ji : Nat) (yfs : Bool) :
    "secret" ∉ (skim_data data
        (append_write_config_exclude defaults (OptionsArg.single (ExcludeItem.str "secret"))
          ++ extra)).map Prod.fst ∧
    write_config (append_write_config_exclude defaults (OptionsArg.single (ExcludeItem.str "secret")))
        (setattr data "secret" v) f_path extra ji yfs =
      write_config (append_write_config_exclude defaults (OptionsArg.single (ExcludeItem.str "secret")))
        (removeKey data "secret") f_path extra ji yfs := by
  have hmem : "secret" ∈
      append_write_config_exclude defaults (OptionsArg.single (ExcludeItem.str "secret")) ++ extra :=
    List.mem_append_left _ (secret_mem_append defaults)
  refine ⟨mem_skim_keys data _ _ hmem, ?_⟩
  simp only [write_config, to_dict]
  apply write_configfile_congr
  rw [skim_setattr_excluded data _ _ v hmem, skim_removeKey_excluded data _ _ hmem]

/-- Claim C9: read/write asymmetry — when a path's extension (after stripping
a compression extension) maps to no known format, `read_config` fails with the
`ValueError` of the taxonomy, while `dict_to_string` on an unsupported or
unspecified output format never fails and returns the `repr` debug string of
the exclusion-filtered mapping. -/
theorem unsupported_format_asymmetry (fs : String → Option String)
    (json_loads yaml_safe_load : String → Except String ConfigDict)
    (ini_read_string : String → IniDoc) (toml_loads : String → TomlDoc)
    (path content : String) (isec tsec : String)
    (data : ConfigDict) (excl : List String) (ofmt : String) (ji : Nat) (yfs : Bool)
    (hfs : fs path = some content)
    (hread : detect_format (config_basename path) = none)
    (hwrite : output_format_known ofmt = false) :
    read_config fs json_loads yaml_safe_load ini_read_string toml_loads path isec tsec =
      Except.error ("Unsupported config file format: " ++ path) ∧
    dict_to_string data excl ofmt ji yfs isec tsec = Except.ok (pyRepr (skim_data data excl)) := by
  constructor
  · have h1 : pyEndsWith (config_basename path) ".json" = false := by
      cases h : pyEndsWith (config_basename path) ".json" with
      | false => rfl
      | true => simp [detect_format, h] at hread
    have h2 : pyEndsWith (config_basename path) ".yaml" = false := by
      cases h : pyEndsWith (config_basename path) ".yaml" with
      | false => rfl
      | true => simp [detect_format, h1, h] at hread
    have h3 : pyEndsWith (config_basename path) ".yml" = false := by
      cases h : pyEndsWith (config_basename path) ".yml" with
      | false => rfl
      | true => simp [detect_format, h1, h2, h] at hread
    have h4 : pyEndsWith (config_basename path) ".ini" = false := by
      cases h : pyEndsWith (config_basename path) ".ini" with
      | false => rfl
      | true => simp [detect_format, h1, h2, h3, h] at hread
    have h5 : pyEndsWith (config_basename path) ".toml" = false := by
      cases h : pyEndsWith (config_basename path) ".toml" with
      | false => rfl
      | true => simp [detect_format, h1, h2, h3, h4, h] at hread
    simp [read_config, hfs, h1, h2, h3, h4, h5]
  · have w1 : pyEndsWith ofmt "json" = false := by
      cases h : pyEndsWith ofmt "json" with
      | false => rfl
      | true => simp [output_format_known, h] at hwrite
    have w2 : pyEndsWith ofmt "yaml" = false := by
      cases h : pyEndsWith ofmt "yaml" with
      | false => rfl
      | true => simp [output_format_known, h] at hwrite
    have w3 : pyEndsWith ofmt "yml" = false := by
      cases h : pyEndsWith ofmt "yml" with
      | false => rfl
      | true => simp [output_format_known, h] at hwrite
    have w4 : pyEndsWith ofmt "ini" = false := by
      cases h : pyEndsWith ofmt "ini" with
      | false => rfl
      | true => simp [output_format_known, h] at hwrite
    have w5 : pyEndsWith ofmt "toml" = false := by
      cases h : pyEndsWith ofmt "toml" with
      | false => rfl
      | true => simp [output_format_known, h] at hwrite
    simp [dict_to_string, w1, w2, w3, w4, w5]

/-- Witness for C9 at a concrete unsupported extension `.txt`. -/
theorem unsupported_format_asymmetry_witness :
    read_config fsTxtEx dummyDictLoads dummyDictLoads dummyIniParse dummyTomlLoads
      "conf.txt" "DEFAULT" "DEFAULT" =
      Except.error ("Unsupported config file format: " ++ "conf.txt") ∧
    dict_to_string mEx [] ".txt" 4 false "DEFAULT" "DEFAULT" =
      Except.ok (pyRepr (skim_data mEx [])) :=
  unsupported_format_asymmetry fsTxtEx dummyDictLoads dummyDictLoads dummyIniParse dummyTomlLoads
    "conf.txt" "hello" "DEFAULT" "DEFAULT" mEx [] ".txt" 4 false rfl rfl rfl

/-- Claim C8 (code behaviour, refuting it): with the save-config option set to
`out.json` in the namespace, `save_config_action` writes nothing — line 188
passes the parser object itself (not the computed `save_path`) as the file
path, and `write_configfile` silently returns for a non-string path.  The
second conjunct shows the write the computed path would have produced. -/
theorem save_config_action_never_writes :
    save_config_action nsSaveEx "save_configfile" [] [] 4 false = Except.ok none ∧
    write_configfile (PyFPath.str "out.json") nsSaveEx [] 4 false "DEFAULT" "DEFAULT" =
      Except.ok (some ("out.json", json_dumps (skim_data nsSaveEx []) 4)) := by
  exact ⟨rfl, rfl⟩

/-- Claim C2 (code behaviour at a failing instance, refuting the four-format
round-trip): encoding `M = {a: 1}` in TOML with section `DEFAULT` produces
`[DEFAULT]\na = 1\n`, and decoding that text back through `read_config` yields
the empty mapping, not `M`. -/
theorem toml_round_trip_fails :
    dict_to_string mEx [] ".toml" 4 false "DEFAULT" "DEFAULT" = Except.ok tomlTextEx ∧
    read_config fsRtTomlEx dummyDictLoads dummyDictLoads dummyIniParse tomlParseEx
      "rt.toml" "DEFAULT" "DEFAULT" = Except.ok [] ∧
    ([] : ConfigDict) ≠ mEx := by
  refine ⟨rfl, rfl, by decide⟩
